import Mathlib

/-! Shallow embedding of the fitness tracker's store and core operations.
SQLite tables are lists of row structures, REAL columns are ℚ, nullable
columns are Option, and every operation is a pure state transformer. -/

structure UserRow where
  id : Nat
  username : String
  password : String
  age : ℚ
  gender : String
  weight : ℚ
  height : ℚ
  fitness_goal : String
  bmr : Option ℚ
deriving DecidableEq

structure ExerciseRow where
  user_id : Nat
  name : String
  reps : ℚ
  weight : ℚ
  duration : ℚ
  distance : ℚ
  timestamp : Nat
deriving DecidableEq

structure RoutineRow where
  user_id : Nat
  routine_name : String
  exercise_name : String
  reps : ℚ
  weight : ℚ
  sets : Nat
  duration : ℚ
  distance : ℚ
deriving DecidableEq

structure GoalRow where
  user_id : Nat
  daily_calorie_goal : Option ℚ
  exercise_name : Option String
  target_reps : Option ℚ
  target_weight : Option ℚ
  target_duration : Option ℚ
  target_distance : Option ℚ
deriving DecidableEq

structure OtherExerciseRow where
  user_id : Option Nat
  name : String
  light_intensity : ℚ
  moderate_intensity : ℚ
  intense_intensity : ℚ
deriving DecidableEq

structure Store where
  users : List UserRow
  exercises : List ExerciseRow
  routines : List RoutineRow
  goals : List GoalRow
  other_exercises : List OtherExerciseRow
  next_user_id : Nat
deriving DecidableEq

/-- Python's `str.lower`, modelled characterwise. -/
def lowerStr (s : String) : String := String.mk (s.data.map Char.toLower)

/-- `calculate_bmr` from the source: female and male Harris–Benedict
formulas after lowercasing the gender; any other gender yields no value
(the code reports the invalid gender and returns None). -/
def calculate_bmr (gender : String) (weight height age : ℚ) : Option ℚ :=
  if lowerStr gender = "female" then
    some (655.1 + 9.563 * weight + 1.850 * height - 4.676 * age)
  else if lowerStr gender = "male" then
    some (66.47 + 13.75 * weight + 5.003 * height - 6.755 * age)
  else
    none

/-- `calculate_goal_calories` from the source. -/
def calculate_goal_calories (bmr : ℚ) (fitness_goal : String) : ℚ :=
  if fitness_goal = "lose" then bmr - 300
  else if fitness_goal = "gain" then bmr + 300
  else bmr

/-- C4: computeBMR reproduces the female and male formulas exactly,
in particular at the concrete female input (60, 165, 30). -/
theorem C4_bmr_formula (w h a : ℚ) :
    calculate_bmr "female" w h a =
      some (655.1 + 9.563 * w + 1.850 * h - 4.676 * a) ∧
    calculate_bmr "male" w h a =
      some (66.47 + 13.75 * w + 5.003 * h - 6.755 * a) ∧
    calculate_bmr "female" 60 165 30 =
      some (655.1 + 9.563 * 60 + 1.850 * 165 - 4.676 * 30) := by
  refine ⟨?_, ?_, ?_⟩ <;> unfold calculate_bmr
  · rw [if_pos (by decide)]
  · rw [if_neg (by decide), if_pos (by decide)]
  · rw [if_pos (by decide)]

/-- C5: for any gender other than female/male (case-insensitive),
computeBMR yields no numeric value at all (the error outcome `none`,
never a defaulted number). -/
theorem C5_invalid_gender_no_value (g : String) (w h a : ℚ)
    (h1 : lowerStr g ≠ "female") (h2 : lowerStr g ≠ "male") :
    calculate_bmr g w h a = none := by
  unfold calculate_bmr
  rw [if_neg h1, if_neg h2]

theorem C5_invalid_gender_no_value_witness :
    calculate_bmr "abc" 1 1 1 = none :=
  C5_invalid_gender_no_value "abc" 1 1 1 (by decide) (by decide)

/-- The per-pair percentage computation inside `view_exercise_progress`:
a non-null, non-zero target paired with a present actual value gives
min(actual/target*100, 100); a missing actual gives 0; a null or zero
target gives 0 (the code tests `goal_value != 0` only). -/
def progressPercentage : Option ℚ → Option ℚ → ℚ
  | some g, some a => if g ≠ 0 then min (a / g * 100) 100 else 0
  | some g, none => if g ≠ 0 then 0 else 0
  | none, _ => 0

/-- C1 fails as stated: a negative target is not mapped to 0; with
target -10 and actual 5 the code reports -50, which is neither 0 nor
inside [0, 100]. -/
theorem C1_negative_target_not_zeroed :
    progressPercentage (some (-10)) (some 5) = -50 ∧
    progressPercentage (some (-10)) (some 5) ≠ 0 ∧
    ¬ (0 ≤ progressPercentage (some (-10)) (some 5)) := by
  have h : progressPercentage (some (-10)) (some 5) = -50 := by
    simp only [progressPercentage]
    rw [if_pos (by norm_num)]
    have e : (5 : ℚ) / (-10) * 100 = -50 := by norm_num
    rw [e, min_eq_left (by norm_num)]
  refine ⟨h, ?_, ?_⟩
  · rw [h]; norm_num
  · rw [h]; norm_num

/-- C1 amended: with a non-null, non-zero target and a present actual,
the percentage is min(actual/target*100, 100); it lies in [0,100]
whenever the target is positive and the actual non-negative; a null or
zero target, or a missing actual, yields 0 with no division error. -/
theorem C1_progress_percentage_amended (g a : ℚ) (x : Option ℚ)
    (hg : 0 < g) (ha : 0 ≤ a) :
    progressPercentage (some g) (some a) = min (a / g * 100) 100 ∧
    0 ≤ progressPercentage (some g) (some a) ∧
    progressPercentage (some g) (some a) ≤ 100 ∧
    progressPercentage none x = 0 ∧
    progressPercentage (some 0) x = 0 ∧
    progressPercentage (some g) none = 0 := by
  have hne : g ≠ 0 := ne_of_gt hg
  have h1 : progressPercentage (some g) (some a) = min (a / g * 100) 100 := by
    simp only [progressPercentage]
    rw [if_pos hne]
  refine ⟨h1, ?_, ?_, rfl, ?_, ?_⟩
  · rw [h1]
    exact le_min (mul_nonneg (div_nonneg ha hg.le) (by norm_num)) (by norm_num)
  · rw [h1]
    exact min_le_right _ _
  · rcases x with _ | y <;> simp [progressPercentage]
  · simp [progressPercentage]

theorem C1_progress_percentage_amended_witness :
    (0 : ℚ) < 2 ∧ (0 : ℚ) ≤ 1 ∧
    (progressPercentage (some 2) (some 1) = min ((1 : ℚ) / 2 * 100) 100 ∧
     0 ≤ progressPercentage (some 2) (some 1) ∧
     progressPercentage (some 2) (some 1) ≤ 100 ∧
     progressPercentage none none = 0 ∧
     progressPercentage (some 0) none = 0 ∧
     progressPercentage (some 2) none = 0) :=
  ⟨by norm_num, by norm_num,
   C1_progress_percentage_amended 2 1 none (by norm_num) (by norm_num)⟩

/-- One output row of the progress query of `view_exercise_progress`:
the goal's four targets followed by the joined exercise columns, in the
column order of the SELECT (reps, weight, distance, duration). -/
structure ProgressEntry where
  exercise_name : Option String
  target_reps : Option ℚ
  target_weight : Option ℚ
  target_distance : Option ℚ
  target_duration : Option ℚ
  e_reps : Option ℚ
  e_weight : Option ℚ
  e_distance : Option ℚ
  e_duration : Option ℚ
deriving DecidableEq

/-- The WHERE clause of the progress query: at least one target column
is non-null. -/
def goalHasTarget (g : GoalRow) : Bool :=
  g.target_reps.isSome || g.target_weight.isSome ||
    g.target_distance.isSome || g.target_duration.isSome

/-- The join condition: the exercise row belongs to the user and its
name equals the goal's exercise name (a null goal name matches no row,
as in SQL). -/
def exerciseMatches (uid : Nat) (g : GoalRow) (e : ExerciseRow) : Bool :=
  e.user_id == uid && g.exercise_name == some e.name

def entryOfMatch (g : GoalRow) (e : ExerciseRow) : ProgressEntry :=
  ⟨g.exercise_name, g.target_reps, g.target_weight, g.target_distance,
   g.target_duration, some e.reps, some e.weight, some e.distance,
   some e.duration⟩

def entryNoMatch (g : GoalRow) : ProgressEntry :=
  ⟨g.exercise_name, g.target_reps, g.target_weight, g.target_distance,
   g.target_duration, none, none, none, none⟩

/-- LEFT JOIN semantics: one output row per matching exercise row of
the user; a goal with no matching row yields a single all-null row. -/
def leftJoinRows (s : Store) (uid : Nat) (g : GoalRow) : List ProgressEntry :=
  match s.exercises.filter (exerciseMatches uid g) with
  | [] => [entryNoMatch g]
  | e :: ms => (e :: ms).map (entryOfMatch g)

/-- The progress query of `view_exercise_progress`: goals are NOT
filtered by user (only the joined exercises subquery is), and every
matching exercise row contributes an output row. -/
def view_exercise_progress_query (s : Store) (uid : Nat) : List ProgressEntry :=
  (s.goals.filter goalHasTarget).flatMap (leftJoinRows s uid)

def c2goalA : GoalRow := ⟨2, none, some "Bench", some 10, none, none, none⟩

def c2goalB : GoalRow := ⟨1, none, some "Run", none, none, none, some 5⟩

def c2ex1 : ExerciseRow := ⟨1, "Run", 0, 0, 0, 3, 100⟩

def c2ex2 : ExerciseRow := ⟨1, "Run", 0, 0, 0, 4, 200⟩

def c2store : Store := ⟨[], [c2ex1, c2ex2], [], [c2goalA, c2goalB], [], 3⟩

/-- C2 fails as stated: querying progress for user 1 also returns the
goal row of user 2 (the query never filters goals by user), and the
goal of user 1 is joined against BOTH of its logged entries, not only
the most recent one. -/
theorem C2_foreign_goal_and_duplicate_join :
    view_exercise_progress_query c2store 1 =
      [entryNoMatch c2goalA, entryOfMatch c2goalB c2ex1,
        entryOfMatch c2goalB c2ex2] ∧
    (∀ g ∈ c2store.goals, g.user_id = 1 → g = c2goalB) ∧
    c2goalA.user_id = 2 ∧ c2ex1.timestamp < c2ex2.timestamp := by
  decide

/-- C2 amended: the query aggregates over the goal rows of ALL users
that have at least one non-null target, left-joining each against every
exercise row of the given user whose name matches the goal (one output
row per matching entry); only a goal with no matching entry yields the
single all-null row. -/
theorem C2_query_membership_amended (s : Store) (uid : Nat) (e : ProgressEntry) :
    e ∈ view_exercise_progress_query s uid ↔
      ∃ g ∈ s.goals, goalHasTarget g = true ∧
        ((∃ ex ∈ s.exercises, exerciseMatches uid g ex = true ∧
            e = entryOfMatch g ex) ∨
         ((∀ ex ∈ s.exercises, exerciseMatches uid g ex = false) ∧
            e = entryNoMatch g)) := by
  unfold view_exercise_progress_query
  rw [List.mem_flatMap]
  constructor
  · rintro ⟨g, hg, he⟩
    rw [List.mem_filter] at hg
    refine ⟨g, hg.1, hg.2, ?_⟩
    unfold leftJoinRows at he
    rcases hfe : s.exercises.filter (exerciseMatches uid g) with _ | ⟨x, xs⟩
    · rw [hfe] at he
      simp only [List.mem_singleton] at he
      refine Or.inr ⟨?_, he⟩
      intro ex hex
      simpa using (List.filter_eq_nil_iff.mp hfe) ex hex
    · rw [hfe] at he
      rw [List.mem_map] at he
      obtain ⟨ex, hex, rfl⟩ := he
      have hex2 : ex ∈ s.exercises.filter (exerciseMatches uid g) := by
        rw [hfe]; exact hex
      rw [List.mem_filter] at hex2
      exact Or.inl ⟨ex, hex2.1, hex2.2, rfl⟩
  · rintro ⟨g, hg, ht, h⟩
    refine ⟨g, List.mem_filter.mpr ⟨hg, ht⟩, ?_⟩
    unfold leftJoinRows
    rcases h with ⟨ex, hex, hm, rfl⟩ | ⟨hall, rfl⟩
    · rcases hfe : s.exercises.filter (exerciseMatches uid g) with _ | ⟨x, xs⟩
      · exact absurd hm ((List.filter_eq_nil_iff.mp hfe ex hex))
      · show entryOfMatch g ex ∈ (x :: xs).map (entryOfMatch g)
        rw [List.mem_map]
        refine ⟨ex, ?_, rfl⟩
        rw [← hfe]
        exact List.mem_filter.mpr ⟨hex, hm⟩
    · have hfe : s.exercises.filter (exerciseMatches uid g) = [] := by
        rw [List.filter_eq_nil_iff]
        intro ex hex
        simp [hall ex hex]
      rw [hfe]
      simp

/-- The four goal attributes of `update_profile` option 2. -/
inductive Attr
  | reps
  | weight
  | duration
  | distance
deriving DecidableEq

/-- Reading the dynamically selected `target_{attribute}` column. -/
def getTarget (g : GoalRow) : Attr → Option ℚ
  | .reps => g.target_reps
  | .weight => g.target_weight
  | .duration => g.target_duration
  | .distance => g.target_distance

/-- Writing the dynamically selected `target_{attribute}` column. -/
def setTarget (g : GoalRow) : Attr → ℚ → GoalRow
  | .reps, v => { g with target_reps := some v }
  | .weight, v => { g with target_weight := some v }
  | .duration, v => { g with target_duration := some v }
  | .distance, v => { g with target_distance := some v }

/-- The WHERE clause of the UPDATE statement: user and exercise name
match (the attribute being non-null is NOT part of it). -/
def goalRowMatches (uid : Nat) (ex : String) (g : GoalRow) : Bool :=
  g.user_id == uid && g.exercise_name == some ex

/-- The existence SELECT of `update_profile` option 2: some goal row
for (user, exercise) already has the attribute non-null. -/
def goalExists (s : Store) (uid : Nat) (ex : String) (a : Attr) : Bool :=
  s.goals.any (fun g => goalRowMatches uid ex g && (getTarget g a).isSome)

/-- The row inserted when no such goal exists: only user, exercise and
the chosen attribute are populated. -/
def newGoalRow (uid : Nat) (ex : String) (a : Attr) (v : ℚ) : GoalRow :=
  setTarget ⟨uid, none, some ex, none, none, none, none⟩ a v

/-- `update_profile` option 2 from the source: if a goal row for
(user, exercise) has the attribute non-null, UPDATE the attribute on
EVERY row matching (user, exercise); otherwise INSERT a fresh row. -/
def add_exercise_goal (s : Store) (uid : Nat) (ex : String) (a : Attr) (v : ℚ) :
    Store :=
  if goalExists s uid ex a then
    { s with goals := s.goals.map (fun g =>
        if goalRowMatches uid ex g then setTarget g a v else g) }
  else
    { s with goals := s.goals ++ [newGoalRow uid ex a v] }

theorem setTarget_matches (uid : Nat) (ex : String) (g : GoalRow) (a : Attr) (v : ℚ) :
    goalRowMatches uid ex (setTarget g a v) = goalRowMatches uid ex g := by
  cases a <;> rfl

theorem getTarget_setTarget_same (g : GoalRow) (a : Attr) (v : ℚ) :
    getTarget (setTarget g a v) a = some v := by
  cases a <;> rfl

theorem getTarget_setTarget_other (g : GoalRow) (a b : Attr) (v : ℚ) (h : b ≠ a) :
    getTarget (setTarget g a v) b = getTarget g b := by
  cases a <;> cases b <;> first | rfl | exact absurd rfl h

theorem setTarget_dcg (g : GoalRow) (a : Attr) (v : ℚ) :
    (setTarget g a v).daily_calorie_goal = g.daily_calorie_goal := by
  cases a <;> rfl

/-- After one upsert, some (user, exercise) goal row holds the value. -/
theorem exists_row_with_attr (s : Store) (uid : Nat) (ex : String) (a : Attr) (v : ℚ) :
    ∃ g ∈ (add_exercise_goal s uid ex a v).goals,
      goalRowMatches uid ex g = true ∧ getTarget g a = some v := by
  unfold add_exercise_goal
  by_cases hc : goalExists s uid ex a
  · rw [if_pos hc]
    unfold goalExists at hc
    rw [List.any_eq_true] at hc
    obtain ⟨g0, hg0, hp⟩ := hc
    rw [Bool.and_eq_true] at hp
    refine ⟨setTarget g0 a v, ?_, ?_, getTarget_setTarget_same g0 a v⟩
    · exact List.mem_map.mpr ⟨g0, hg0, by simp [hp.1]⟩
    · rw [setTarget_matches]; exact hp.1
  · rw [if_neg hc]
    refine ⟨newGoalRow uid ex a v, ?_, ?_, getTarget_setTarget_same _ a v⟩
    · simp
    · unfold newGoalRow
      rw [setTarget_matches]
      simp [goalRowMatches]

/-- A value already held by a matching goal row survives an upsert of a
different attribute. -/
theorem preserved_other_attr (s : Store) (uid : Nat) (ex : String) (a : Attr)
    (v : ℚ) (b : Attr) (w : ℚ) (hba : b ≠ a)
    (h : ∃ g ∈ s.goals, goalRowMatches uid ex g = true ∧ getTarget g b = some w) :
    ∃ g ∈ (add_exercise_goal s uid ex a v).goals,
      goalRowMatches uid ex g = true ∧ getTarget g b = some w := by
  obtain ⟨g0, hg0, hmatch, hval⟩ := h
  unfold add_exercise_goal
  by_cases hc : goalExists s uid ex a
  · rw [if_pos hc]
    refine ⟨setTarget g0 a v, List.mem_map.mpr ⟨g0, hg0, by simp [hmatch]⟩, ?_, ?_⟩
    · rw [setTarget_matches]; exact hmatch
    · rw [getTarget_setTarget_other _ _ _ _ hba]; exact hval
  · rw [if_neg hc]
    exact ⟨g0, List.mem_append_left _ hg0, hmatch, hval⟩

/-- Setting reps=10 then weight=50 never loses the reps value. -/
theorem reps_then_weight_keeps_reps (s : Store) (uid : Nat) (ex : String) :
    ∃ g ∈ (add_exercise_goal (add_exercise_goal s uid ex Attr.reps 10)
        uid ex Attr.weight 50).goals,
      goalRowMatches uid ex g = true ∧ getTarget g Attr.reps = some 10 :=
  preserved_other_attr _ uid ex Attr.weight 50 Attr.reps 10 (by decide)
    (exists_row_with_attr s uid ex Attr.reps 10)

def c3goal1 : GoalRow := ⟨1, none, some "Bench", some 10, none, none, none⟩

def c3goal2 : GoalRow := ⟨1, none, some "Bench", none, some 50, none, none⟩

def c3store : Store := ⟨[], [], [], [c3goal1, c3goal2], [], 2⟩

/-- C3 fails as stated: with two goal rows for (user 1, "Bench") — one
holding reps=10, one holding weight=50 — updating reps to 20 also
overwrites target_reps in the OTHER row, so a goal row other than the
found one changes. -/
theorem C3_sibling_row_overwritten :
    goalExists c3store 1 "Bench" Attr.reps = true ∧
    (add_exercise_goal c3store 1 "Bench" Attr.reps 20).goals =
      [⟨1, none, some "Bench", some 20, none, none, none⟩,
       ⟨1, none, some "Bench", some 20, some 50, none, none⟩] ∧
    (add_exercise_goal c3store 1 "Bench" Attr.reps 20).goals.get? 1 ≠
      some c3goal2 := by
  decide

/-- C3 amended: when a (user, exercise) goal row with the attribute
non-null exists, the operation sets that attribute in EVERY goal row
matching (user, exercise) — not only in the found row — while leaving
each row's other target attributes and daily_calorie_goal unchanged,
rows of other (user, exercise) pairs unchanged, and the users table
unchanged; the reps=10-then-weight=50 sequence still keeps reps=10. -/
theorem C3_goal_attribute_update_amended (s : Store) (uid : Nat) (ex : String)
    (a : Attr) (v : ℚ) (hfound : goalExists s uid ex a = true) :
    (add_exercise_goal s uid ex a v).goals.length = s.goals.length ∧
    (∀ i g, s.goals.get? i = some g →
      (goalRowMatches uid ex g = false →
        (add_exercise_goal s uid ex a v).goals.get? i = some g) ∧
      (goalRowMatches uid ex g = true →
        (add_exercise_goal s uid ex a v).goals.get? i = some (setTarget g a v) ∧
        getTarget (setTarget g a v) a = some v ∧
        (∀ b, b ≠ a → getTarget (setTarget g a v) b = getTarget g b) ∧
        (setTarget g a v).daily_calorie_goal = g.daily_calorie_goal)) ∧
    (add_exercise_goal s uid ex a v).users = s.users ∧
    (∃ g ∈ (add_exercise_goal (add_exercise_goal s uid ex Attr.reps 10)
        uid ex Attr.weight 50).goals,
      goalRowMatches uid ex g = true ∧ getTarget g Attr.reps = some 10) := by
  have hbr : add_exercise_goal s uid ex a v =
      { s with goals := s.goals.map (fun g =>
          if goalRowMatches uid ex g then setTarget g a v else g) } := by
    unfold add_exercise_goal
    rw [if_pos hfound]
  refine ⟨?_, ?_, ?_, reps_then_weight_keeps_reps s uid ex⟩
  · rw [hbr]
    exact List.length_map _ _
  · intro i g hg
    have hmap : (add_exercise_goal s uid ex a v).goals.get? i =
        Option.map (fun g => if goalRowMatches uid ex g then setTarget g a v else g)
          (s.goals.get? i) := by
      rw [hbr]
      exact List.get?_map _ _ _
    rw [hg] at hmap
    constructor
    · intro hfalse
      rw [hmap]
      simp [hfalse]
    · intro htrue
      refine ⟨?_, getTarget_setTarget_same g a v,
        fun b hb => getTarget_setTarget_other g a b v hb, setTarget_dcg g a v⟩
      rw [hmap]
      simp [htrue]
  · rw [hbr]

theorem C3_goal_attribute_update_amended_witness :
    goalExists c3store 1 "Bench" Attr.reps = true ∧
    ((add_exercise_goal c3store 1 "Bench" Attr.reps 20).goals.length =
        c3store.goals.length ∧
     (∀ i g, c3store.goals.get? i = some g →
       (goalRowMatches 1 "Bench" g = false →
         (add_exercise_goal c3store 1 "Bench" Attr.reps 20).goals.get? i =
           some g) ∧
       (goalRowMatches 1 "Bench" g = true →
         (add_exercise_goal c3store 1 "Bench" Attr.reps 20).goals.get? i =
           some (setTarget g Attr.reps 20) ∧
         getTarget (setTarget g Attr.reps 20) Attr.reps = some 20 ∧
         (∀ b, b ≠ Attr.reps →
           getTarget (setTarget g Attr.reps 20) b = getTarget g b) ∧
         (setTarget g Attr.reps 20).daily_calorie_goal =
           g.daily_calorie_goal)) ∧
     (add_exercise_goal c3store 1 "Bench" Attr.reps 20).users = c3store.users ∧
     (∃ g ∈ (add_exercise_goal (add_exercise_goal c3store 1 "Bench" Attr.reps 10)
         1 "Bench" Attr.weight 50).goals,
       goalRowMatches 1 "Bench" g = true ∧ getTarget g Attr.reps = some 10)) :=
  ⟨by decide, C3_goal_attribute_update_amended c3store 1 "Bench" Attr.reps 20
    (by decide)⟩

/-- `update_profile` option 1 from the source: fetch the user's stored
biometrics, recompute BMR from the NEW weight, set users.weight to the
new weight, and write the recomputed BMR into daily_calorie_goal of the
user's goal rows; the users.bmr column itself is never written. A
missing user row makes the Python code fail before any write. -/
def update_weight (s : Store) (uid : Nat) (w : ℚ) : Option Store :=
  match s.users.find? (fun u => u.id == uid) with
  | none => none
  | some u =>
    some { s with
      users := s.users.map (fun x =>
        if x.id == uid then { x with weight := w } else x),
      goals := s.goals.map (fun g =>
        if g.user_id == uid then
          { g with daily_calorie_goal := calculate_bmr u.gender w u.height u.age }
        else g) }

def c6user : UserRow :=
  ⟨1, "alice", "pw", 30, "female", 60, 165, "maintain", some 1393.85⟩

def c6store : Store :=
  ⟨[c6user], [], [], [⟨1, some 1393.85, none, none, none, none, none⟩], [], 2⟩

/-- C6 fails as stated: after updating the weight of user 1 from 60 to
80, the stored user row still carries the old BMR 1393.85, while
computeBMR("female", 80, 165, 30) = 1585.11; the code never writes
users.bmr. -/
theorem C6_user_bmr_not_recomputed :
    (update_weight c6store 1 80).map Store.users =
      some [⟨1, "alice", "pw", 30, "female", 80, 165, "maintain", some 1393.85⟩] ∧
    calculate_bmr "female" 80 165 30 = some 1585.11 ∧
    (1393.85 : ℚ) ≠ 1585.11 := by
  refine ⟨rfl, ?_, by norm_num⟩
  unfold calculate_bmr
  rw [if_pos (by decide)]
  simp only [Option.some.injEq]
  norm_num

/-- C6 amended: the weight update stores the new weight in the user's
row but leaves users.bmr unchanged; the BMR recomputed from the new
weight is instead written into daily_calorie_goal of every goal row of
the user; all other rows and tables are unchanged. -/
theorem C6_weight_update_amended (s : Store) (uid : Nat) (w : ℚ) (u : UserRow)
    (hu : s.users.find? (fun x => x.id == uid) = some u) :
    ∃ s2, update_weight s uid w = some s2 ∧
      s2.users.length = s.users.length ∧
      (∀ i x, s.users.get? i = some x →
        (x.id ≠ uid → s2.users.get? i = some x) ∧
        (x.id = uid → s2.users.get? i = some { x with weight := w } ∧
          UserRow.bmr { x with weight := w } = x.bmr ∧
          UserRow.weight { x with weight := w } = w)) ∧
      s2.goals.length = s.goals.length ∧
      (∀ i g, s.goals.get? i = some g →
        (g.user_id ≠ uid → s2.goals.get? i = some g) ∧
        (g.user_id = uid → s2.goals.get? i =
          some { g with daily_calorie_goal :=
            calculate_bmr u.gender w u.height u.age })) ∧
      s2.exercises = s.exercises ∧ s2.routines = s.routines := by
  have hw : update_weight s uid w =
      some { s with
        users := s.users.map (fun x =>
          if x.id == uid then { x with weight := w } else x),
        goals := s.goals.map (fun g =>
          if g.user_id == uid then
            { g with daily_calorie_goal := calculate_bmr u.gender w u.height u.age }
          else g) } := by
    unfold update_weight
    rw [hu]
  refine ⟨_, hw, List.length_map _ _, ?_, List.length_map _ _, ?_, rfl, rfl⟩
  · intro i x hx
    have hmap : (List.map (fun x =>
        if x.id == uid then { x with weight := w } else x) s.users).get? i =
        some (if x.id == uid then { x with weight := w } else x) := by
      rw [List.get?_map, hx]
      rfl
    constructor
    · intro hne
      rw [hmap]
      simp [hne]
    · intro heq
      refine ⟨?_, rfl, rfl⟩
      rw [hmap]
      simp [heq]
  · intro i g hg
    have hmap : (List.map (fun g =>
        if g.user_id == uid then
          { g with daily_calorie_goal := calculate_bmr u.gender w u.height u.age }
        else g) s.goals).get? i =
        some (if g.user_id == uid then
          { g with daily_calorie_goal := calculate_bmr u.gender w u.height u.age }
        else g) := by
      rw [List.get?_map, hg]
      rfl
    constructor
    · intro hne
      rw [hmap]
      simp [hne]
    · intro heq
      rw [hmap]
      simp [heq]

theorem C6_weight_update_amended_witness :
    c6store.users.find? (fun x => x.id == 1) = some c6user ∧
    (∃ s2, update_weight c6store 1 80 = some s2 ∧
      s2.users.length = c6store.users.length ∧
      (∀ i x, c6store.users.get? i = some x →
        (x.id ≠ 1 → s2.users.get? i = some x) ∧
        (x.id = 1 → s2.users.get? i = some { x with weight := 80 } ∧
          UserRow.bmr { x with weight := 80 } = x.bmr ∧
          UserRow.weight { x with weight := 80 } = (80 : ℚ))) ∧
      s2.goals.length = c6store.goals.length ∧
      (∀ i g, c6store.goals.get? i = some g →
        (g.user_id ≠ 1 → s2.goals.get? i = some g) ∧
        (g.user_id = 1 → s2.goals.get? i =
          some { g with daily_calorie_goal :=
            calculate_bmr c6user.gender 80 c6user.height c6user.age })) ∧
      s2.exercises = c6store.exercises ∧ s2.routines = c6store.routines) :=
  ⟨rfl, C6_weight_update_amended c6store 1 80 c6user rfl⟩

/-- A SQLite transaction on the routines table: `base` is the committed
content, `pending` the uncommitted inserts of the open transaction. -/
structure Txn where
  base : List RoutineRow
  pending : List RoutineRow

def txnInsert (t : Txn) (r : RoutineRow) : Txn :=
  { t with pending := t.pending ++ [r] }

def txnInsertAll (t : Txn) (rs : List RoutineRow) : Txn :=
  rs.foldl txnInsert t

/-- `conn.commit()`: pending inserts become durable. -/
def txnCommit (t : Txn) : List RoutineRow :=
  t.base ++ t.pending

/-- `conn.rollback()`: pending inserts are discarded. -/
def txnRollback (t : Txn) : List RoutineRow :=
  t.base

/-- Where the user's KeyboardInterrupt lands in `create_routine`:
while input is still being gathered (no INSERT executed yet), after k
of the buffered INSERTs, or nowhere (the commit path). -/
inductive RoutineInterrupt
  | duringInput
  | afterInserts (k : Nat)
  | noInterrupt
deriving DecidableEq

/-- `create_routine` from the source: all entered sets are buffered in
`exercise_list` first, then inserted row by row, and `conn.commit()`
runs only after the final confirmation prompt; a KeyboardInterrupt at
any earlier point triggers `conn.rollback()`. -/
def create_routine (s : Store) (exercise_list : List RoutineRow)
    (stop : RoutineInterrupt) : Store :=
  match stop with
  | .duringInput => { s with routines := txnRollback ⟨s.routines, []⟩ }
  | .afterInserts k =>
      { s with routines :=
          txnRollback (txnInsertAll ⟨s.routines, []⟩ (exercise_list.take k)) }
  | .noInterrupt =>
      { s with routines := txnCommit (txnInsertAll ⟨s.routines, []⟩ exercise_list) }

theorem txnInsertAll_base (t : Txn) (rs : List RoutineRow) :
    (txnInsertAll t rs).base = t.base := by
  induction rs generalizing t with
  | nil => rfl
  | cons r rs ih => exact ih (txnInsert t r)

/-- C7: a routine entry interrupted at any point before the commit
leaves the routines table exactly as it was; with a fresh routine name
no row for that routine persists. -/
theorem C7_interrupted_routine_rollback (s : Store)
    (exercise_list : List RoutineRow) (name : String) (stop : RoutineInterrupt)
    (hstop : stop ≠ RoutineInterrupt.noInterrupt)
    (hfresh : ∀ r ∈ s.routines, r.routine_name ≠ name) :
    (create_routine s exercise_list stop).routines = s.routines ∧
    (∀ r ∈ (create_routine s exercise_list stop).routines,
      r.routine_name ≠ name) := by
  cases stop with
  | duringInput => exact ⟨rfl, hfresh⟩
  | afterInserts k =>
      have h1 : (create_routine s exercise_list (.afterInserts k)).routines =
          s.routines := by
        show txnRollback (txnInsertAll ⟨s.routines, []⟩ (exercise_list.take k)) =
          s.routines
        unfold txnRollback
        rw [txnInsertAll_base]
      refine ⟨h1, ?_⟩
      rw [h1]
      exact hfresh
  | noInterrupt => exact absurd rfl hstop

def c7row : RoutineRow := ⟨1, "Old", "Squat", 5, 100, 1, 0, 0⟩

def c7newRow : RoutineRow := ⟨1, "PushDay", "Bench", 8, 60, 1, 0, 0⟩

def c7store : Store := ⟨[], [], [c7row], [], [], 2⟩

theorem C7_interrupted_routine_rollback_witness :
    RoutineInterrupt.afterInserts 1 ≠ RoutineInterrupt.noInterrupt ∧
    (∀ r ∈ c7store.routines, r.routine_name ≠ "PushDay") ∧
    ((create_routine c7store [c7newRow]
        (RoutineInterrupt.afterInserts 1)).routines = c7store.routines ∧
     (∀ r ∈ (create_routine c7store [c7newRow]
        (RoutineInterrupt.afterInserts 1)).routines,
       r.routine_name ≠ "PushDay")) :=
  ⟨by decide, by decide,
   C7_interrupted_routine_rollback c7store [c7newRow] "PushDay"
     (RoutineInterrupt.afterInserts 1) (by decide) (by decide)⟩

/-- `register` from the source: if the username already exists, report
failure and insert nothing; otherwise insert the user row (BMR derived
from the validated gender) and one goals row holding only the initial
daily calorie goal. The gender and fitness-goal strings reach this
point already validated by the re-prompt loops; the `none` branch of
`calculate_bmr` models the pre-insert failure that validated input
never reaches. -/
def register (s : Store) (username pw : String) (age : ℚ) (gender : String)
    (weight height : ℚ) (fitness_goal : String) : Option Nat × Store :=
  if s.users.any (fun u => u.username == username) then (none, s)
  else
    match calculate_bmr gender weight height age with
    | some bmr =>
      let initial_calorie_goal := calculate_goal_calories bmr fitness_goal
      let uid := s.next_user_id
      (some uid,
        { s with
          users := s.users ++
            [⟨uid, username, pw, age, gender, weight, height, fitness_goal,
              some bmr⟩],
          goals := s.goals ++
            [⟨uid, some initial_calorie_goal, none, none, none, none, none⟩],
          next_user_id := uid + 1 })
    | none => (none, s)

/-- C8: registering with a username the store already holds (exactly
one row, per the UNIQUE constraint) fails with no user id, inserts no
user row and no goal row, and leaves exactly one row with that
username. -/
theorem C8_duplicate_username_rejected (s : Store) (username pw : String)
    (age : ℚ) (gender : String) (weight height : ℚ) (fg : String)
    (hone : (s.users.filter (fun u => u.username == username)).length = 1) :
    register s username pw age gender weight height fg = (none, s) ∧
    ((register s username pw age gender weight height fg).2.users.filter
        (fun u => u.username == username)).length = 1 ∧
    (register s username pw age gender weight height fg).2.goals = s.goals := by
  have hany : s.users.any (fun u => u.username == username) = true := by
    rcases hf : s.users.filter (fun u => u.username == username) with _ | ⟨x, xs⟩
    · rw [hf] at hone
      simp at hone
    · rw [List.any_eq_true]
      have hx : x ∈ s.users.filter (fun u => u.username == username) := by
        rw [hf]
        exact List.mem_cons_self x xs
      rw [List.mem_filter] at hx
      exact ⟨x, hx.1, hx.2⟩
  have hreg : register s username pw age gender weight height fg = (none, s) := by
    unfold register
    rw [if_pos hany]
  refine ⟨hreg, ?_, ?_⟩
  · rw [hreg]
    exact hone
  · rw [hreg]

def c8user : UserRow := ⟨1, "bob", "pw", 30, "male", 80, 180, "gain", some 2000⟩

def c8store : Store := ⟨[c8user], [], [], [⟨1, some 2300, none, none, none, none, none⟩], [], 2⟩

theorem C8_duplicate_username_rejected_witness :
    (c8store.users.filter (fun u => u.username == "bob")).length = 1 ∧
    (register c8store "bob" "x" 20 "male" 70 170 "lose" = (none, c8store) ∧
     ((register c8store "bob" "x" 20 "male" 70 170 "lose").2.users.filter
        (fun u => u.username == "bob")).length = 1 ∧
     (register c8store "bob" "x" 20 "male" 70 170 "lose").2.goals =
       c8store.goals) :=
  ⟨by decide, C8_duplicate_username_rejected c8store "bob" "x" 20 "male" 70 170
    "lose" (by decide)⟩

/-- C10: a successful registration appends, besides the user row,
exactly one goals row for the new user whose daily_calorie_goal is
computeGoalCalories(computeBMR(gender, weight, height, age), goal) —
bmr-300 for lose, bmr+300 for gain, bmr otherwise — with the exercise
name and all four targets unset. -/
theorem C10_registration_goal_row (s : Store) (username pw : String) (age : ℚ)
    (gender : String) (weight height : ℚ) (fg : String)
    (hdup : s.users.any (fun u => u.username == username) = false)
    (hg : gender = "female" ∨ gender = "male") :
    ∃ uid s2 bmr,
      register s username pw age gender weight height fg = (some uid, s2) ∧
      calculate_bmr gender weight height age = some bmr ∧
      s2.goals = s.goals ++
        [⟨uid, some (calculate_goal_calories bmr fg), none, none, none, none,
          none⟩] ∧
      s2.users = s.users ++
        [⟨uid, username, pw, age, gender, weight, height, fg, some bmr⟩] ∧
      calculate_goal_calories bmr "lose" = bmr - 300 ∧
      calculate_goal_calories bmr "gain" = bmr + 300 ∧
      (fg ≠ "lose" → fg ≠ "gain" → calculate_goal_calories bmr fg = bmr) := by
  have hbmr : ∃ b, calculate_bmr gender weight height age = some b := by
    rcases hg with h | h <;> subst h <;> unfold calculate_bmr
    · rw [if_pos (by decide)]
      exact ⟨_, rfl⟩
    · rw [if_neg (by decide), if_pos (by decide)]
      exact ⟨_, rfl⟩
  obtain ⟨b, hb⟩ := hbmr
  have hreg : register s username pw age gender weight height fg =
      (some s.next_user_id,
        { s with
          users := s.users ++
            [⟨s.next_user_id, username, pw, age, gender, weight, height, fg,
              some b⟩],
          goals := s.goals ++
            [⟨s.next_user_id, some (calculate_goal_calories b fg), none, none,
              none, none, none⟩],
          next_user_id := s.next_user_id + 1 }) := by
    unfold register
    rw [hdup, hb]
    rfl
  refine ⟨s.next_user_id, _, b, hreg, hb, rfl, rfl, ?_, ?_, ?_⟩
  · unfold calculate_goal_calories
    rw [if_pos rfl]
  · unfold calculate_goal_calories
    rw [if_neg (by decide), if_pos rfl]
  · intro h1 h2
    unfold calculate_goal_calories
    rw [if_neg h1, if_neg h2]

theorem C10_registration_goal_row_witness :
    (c8store.users.any (fun u => u.username == "carol")) = false ∧
    ("male" = "female" ∨ "male" = "male") ∧
    (∃ uid s2 bmr,
      register c8store "carol" "pw2" 25 "male" 70 170 "gain" = (some uid, s2) ∧
      calculate_bmr "male" 70 170 25 = some bmr ∧
      s2.goals = c8store.goals ++
        [⟨uid, some (calculate_goal_calories bmr "gain"), none, none, none,
          none, none⟩] ∧
      s2.users = c8store.users ++
        [⟨uid, "carol", "pw2", 25, "male", 70, 170, "gain", some bmr⟩] ∧
      calculate_goal_calories bmr "lose" = bmr - 300 ∧
      calculate_goal_calories bmr "gain" = bmr + 300 ∧
      ("gain" ≠ "lose" → "gain" ≠ "gain" → calculate_goal_calories bmr "gain" = bmr)) :=
  ⟨by decide, Or.inr rfl,
   C10_registration_goal_row c8store "carol" "pw2" 25 "male" 70 170 "gain"
     (by decide) (Or.inr rfl)⟩

/-- The pregenerated catalog of `get_other_exercises`: name with
calories per minute at light/moderate/intense intensity. -/
def pregenerated_exercises : List (String × ℚ × ℚ × ℚ) :=
  [("Running", 8, 11, 14), ("Swimming", 11, 14, 17),
   ("Padel", 5, 8, 11), ("Climbing", 7, 10, 13)]

/-- `INSERT OR IGNORE` against the UNIQUE(name) constraint: the row is
appended only if NO row of any user already carries the name. -/
def insert_or_ignore (rows : List OtherExerciseRow) (uid : Nat) :
    String × ℚ × ℚ × ℚ → List OtherExerciseRow
  | (nm, l, m, i) =>
    if rows.any (fun r => r.name == nm) then rows
    else rows ++ [⟨some uid, nm, l, m, i⟩]

/-- `get_other_exercises` from the source: seed the catalog with
INSERT OR IGNORE under the accessing user's id, then return the rows
whose user_id is the accessing user or NULL, as name-keyed entries. -/
def get_other_exercises (s : Store) (uid : Nat) :
    List (String × ℚ × ℚ × ℚ) × Store :=
  let rows := pregenerated_exercises.foldl
    (fun acc p => insert_or_ignore acc uid p) s.other_exercises
  ((rows.filter (fun r => r.user_id == some uid || r.user_id == none)).map
      (fun r => (r.name, r.light_intensity, r.moderate_intensity,
        r.intense_intensity)),
    { s with other_exercises := rows })

def c9empty : Store := ⟨[], [], [], [], [], 1⟩

def c9afterFirst : Store := (get_other_exercises c9empty 1).2

/-- C9 fails as stated: after user 1's first access seeds the catalog
(owned by user 1, names globally unique), user 2's own first access
returns a mapping that contains NO catalog entry at all — the returned
mapping is not independent of which user accesses first. -/
theorem C9_second_user_misses_catalog :
    ((get_other_exercises c9empty 1).1.any (fun p => p.1 == "Running")) = true ∧
    (get_other_exercises c9afterFirst 2).1 = [] ∧
    c9afterFirst.other_exercises.any (fun r => r.name == "Running") = true := by
  decide

/-- C9 amended: only when the store holds no row with a catalog name
does an access by user u seed all four catalog exercises — owned by u,
not globally — and only then does u's returned mapping contain all four
entries with their per-intensity coefficients. -/
theorem C9_first_access_seeds_catalog (s : Store) (uid : Nat)
    (hfresh : ∀ r ∈ s.other_exercises,
      r.name ∉ (["Running", "Swimming", "Padel", "Climbing"] : List String)) :
    (get_other_exercises s uid).2.other_exercises =
      s.other_exercises ++
        [⟨some uid, "Running", 8, 11, 14⟩, ⟨some uid, "Swimming", 11, 14, 17⟩,
         ⟨some uid, "Padel", 5, 8, 11⟩, ⟨some uid, "Climbing", 7, 10, 13⟩] ∧
    ("Running", (8 : ℚ), (11 : ℚ), (14 : ℚ)) ∈ (get_other_exercises s uid).1 ∧
    ("Swimming", (11 : ℚ), (14 : ℚ), (17 : ℚ)) ∈ (get_other_exercises s uid).1 ∧
    ("Padel", (5 : ℚ), (8 : ℚ), (11 : ℚ)) ∈ (get_other_exercises s uid).1 ∧
    ("Climbing", (7 : ℚ), (10 : ℚ), (13 : ℚ)) ∈ (get_other_exercises s uid).1 := by
  have hany : ∀ nm : String,
      nm ∈ (["Running", "Swimming", "Padel", "Climbing"] : List String) →
      (s.other_exercises.any (fun r => r.name == nm)) = false := by
    intro nm hnm
    rw [List.any_eq_false]
    intro r hr
    intro hc
    rw [beq_iff_eq] at hc
    exact hfresh r hr (hc ▸ hnm)
  have hstep : ∀ (rows : List OtherExerciseRow) (nm : String) (l m i : ℚ),
      rows.any (fun r => r.name == nm) = false →
      insert_or_ignore rows uid (nm, l, m, i) =
        rows ++ [⟨some uid, nm, l, m, i⟩] := by
    intro rows nm l m i hrows
    simp only [insert_or_ignore]
    rw [hrows]
    simp
  have a1 : s.other_exercises.any (fun r => r.name == "Running") = false :=
    hany _ (by simp)
  have a2 : (s.other_exercises ++
      [(⟨some uid, "Running", 8, 11, 14⟩ : OtherExerciseRow)]).any
      (fun r => r.name == "Swimming") = false := by
    rw [List.any_append, hany _ (by simp)]
    rfl
  have a3 : ((s.other_exercises ++
      [(⟨some uid, "Running", 8, 11, 14⟩ : OtherExerciseRow)]) ++
      [(⟨some uid, "Swimming", 11, 14, 17⟩ : OtherExerciseRow)]).any
      (fun r => r.name == "Padel") = false := by
    rw [List.any_append, List.any_append, hany _ (by simp)]
    rfl
  have a4 : (((s.other_exercises ++
      [(⟨some uid, "Running", 8, 11, 14⟩ : OtherExerciseRow)]) ++
      [(⟨some uid, "Swimming", 11, 14, 17⟩ : OtherExerciseRow)]) ++
      [(⟨some uid, "Padel", 5, 8, 11⟩ : OtherExerciseRow)]).any
      (fun r => r.name == "Climbing") = false := by
    rw [List.any_append, List.any_append, List.any_append, hany _ (by simp)]
    rfl
  have hrows : pregenerated_exercises.foldl
      (fun acc p => insert_or_ignore acc uid p) s.other_exercises =
      s.other_exercises ++
        [⟨some uid, "Running", 8, 11, 14⟩, ⟨some uid, "Swimming", 11, 14, 17⟩,
         ⟨some uid, "Padel", 5, 8, 11⟩, ⟨some uid, "Climbing", 7, 10, 13⟩] := by
    simp only [pregenerated_exercises, List.foldl]
    rw [hstep _ _ _ _ _ a1, hstep _ _ _ _ _ a2, hstep _ _ _ _ _ a3,
      hstep _ _ _ _ _ a4]
    simp
  have hmem : ∀ (nm : String) (l m i : ℚ),
      (⟨some uid, nm, l, m, i⟩ : OtherExerciseRow) ∈
        pregenerated_exercises.foldl
          (fun acc p => insert_or_ignore acc uid p) s.other_exercises →
      (nm, l, m, i) ∈ (get_other_exercises s uid).1 := by
    intro nm l m i hin
    simp only [get_other_exercises]
    apply List.mem_map.mpr
    refine ⟨⟨some uid, nm, l, m, i⟩, ?_, rfl⟩
    apply List.mem_filter.mpr
    exact ⟨hin, by simp⟩
  refine ⟨?_, ?_, ?_, ?_, ?_⟩
  · simp only [get_other_exercises]
    exact hrows
  · exact hmem _ _ _ _ (by rw [hrows]; simp)
  · exact hmem _ _ _ _ (by rw [hrows]; simp)
  · exact hmem _ _ _ _ (by rw [hrows]; simp)
  · exact hmem _ _ _ _ (by rw [hrows]; simp)

theorem C9_first_access_seeds_catalog_witness :
    (∀ r ∈ c9empty.other_exercises,
      r.name ∉ (["Running", "Swimming", "Padel", "Climbing"] : List String)) ∧
    ((get_other_exercises c9empty 7).2.other_exercises =
      c9empty.other_exercises ++
        [⟨some 7, "Running", 8, 11, 14⟩, ⟨some 7, "Swimming", 11, 14, 17⟩,
         ⟨some 7, "Padel", 5, 8, 11⟩, ⟨some 7, "Climbing", 7, 10, 13⟩] ∧
     ("Running", (8 : ℚ), (11 : ℚ), (14 : ℚ)) ∈ (get_other_exercises c9empty 7).1 ∧
     ("Swimming", (11 : ℚ), (14 : ℚ), (17 : ℚ)) ∈ (get_other_exercises c9empty 7).1 ∧
     ("Padel", (5 : ℚ), (8 : ℚ), (11 : ℚ)) ∈ (get_other_exercises c9empty 7).1 ∧
     ("Climbing", (7 : ℚ), (10 : ℚ), (13 : ℚ)) ∈ (get_other_exercises c9empty 7).1) :=
  ⟨by decide, C9_first_access_seeds_catalog c9empty 7 (by decide)⟩
